import Mathlib

/-!
Shallow embedding of the notify_push connection layer
(`src/connection.rs` and `src/lib.rs`).

The embedding models:
* `ActiveConnections` (a `DashMap<UserId, broadcast::Sender<MessageType>>`)
  as a function from user ids to an optional fan-out record carrying the
  live receiver count and the list of messages sent into the channel;
* the pre-auth cache (`DashMap<String, (Instant, UserId)>`) as a function
  from tokens to an optional `(timestamp, user)` pair, with `Instant`
  modelled as `Int` seconds;
* `socket_auth`, the handshake portion of `handle_user_socket`, the
  ping/pong nonce protocol of the sender and receiver flows, and the
  event dispatcher `App::handle_event`.
-/

/-- Outbound message kinds (`MessageType` in `src/message.rs`, as used by
`connection.rs` and `lib.rs`). -/
inductive MessageType where
  | File : MessageType
  | Activity : MessageType
  | Notification : MessageType
  | Custom : String → String → MessageType
deriving DecidableEq, Repr

/-- One fan-out entry of `ActiveConnections`: a `broadcast::Sender` with its
live receiver count and the log of messages sent into the channel. -/
structure Fanout where
  receivers : Nat
  log : List MessageType
deriving DecidableEq, Repr

/-- The `ActiveConnections` map `UserId -> broadcast::Sender`. -/
def ConnState : Type := String → Option Fanout

/-- Pointwise update of the connections map (models `DashMap::insert`). -/
def updateConn (s : ConnState) (u : String) (f : Fanout) : ConnState :=
  fun v => if v = u then some f else s v

/-- The empty `ActiveConnections` map (`ActiveConnections::default()`). -/
def emptyConnections : ConnState := fun _ => none

/-- Constant `USER_CONNECTION_LIMIT` from `src/connection.rs`. -/
def USER_CONNECTION_LIMIT : Nat := 64

namespace ActiveConnections

/-- Model of `ActiveConnections::add` from `src/connection.rs`: if an entry exists and
`sender.receiver_count() > USER_CONNECTION_LIMIT`, fail with
"connection limit exceeded"; if it exists under the limit, subscribe (one more
receiver); otherwise create a fresh channel whose initial receiver is returned. -/
def add (s : ConnState) (u : String) : Except String ConnState :=
  match s u with
  | some f =>
      if f.receivers > USER_CONNECTION_LIMIT then
        Except.error "connection limit exceeded"
      else
        Except.ok (updateConn s u { f with receivers := f.receivers + 1 })
  | none =>
      Except.ok (updateConn s u ⟨1, []⟩)

/-- Model of `ActiveConnections::send_to_user` from `src/connection.rs`: look the user
up; if present, send into the fan-out (best effort); if absent, do nothing. -/
def send_to_user (s : ConnState) (u : String) (msg : MessageType) : ConnState :=
  match s u with
  | some f => updateConn s u { f with log := f.log ++ [msg] }
  | none => s

end ActiveConnections

/-- Sequential iteration of `ActiveConnections.add` for one user: `addIter n`
performs `n` subscribe attempts, stopping at the first failure. -/
def addIter : Nat → ConnState → String → Except String ConnState
  | 0, s, _ => Except.ok s
  | n + 1, s, u =>
      match addIter n s u with
      | Except.ok s' => ActiveConnections.add s' u
      | Except.error e => Except.error e

/-- Receiver count of user `u` after a successful run, `none` on failure or
missing entry. -/
def okReceivers (r : Except String ConnState) (u : String) : Option Nat :=
  match r with
  | Except.ok s => (s u).map Fanout.receivers
  | Except.error _ => none

/-- The pre-auth cache `DashMap<String, (Instant, UserId)>` of `App`, with
`Instant` modelled as `Int` seconds. -/
def PreAuthMap : Type := String → Option (Int × String)

/-- The cull pass at the start of `socket_auth`:
`app.pre_auth.retain(|_, (time, _)| *time > cutoff)` with
`cutoff = Instant::now() - Duration::from_secs(15)`. -/
def cullPreAuth (m : PreAuthMap) (now : Int) : PreAuthMap :=
  fun t =>
    match m t with
    | some (time, u) => if time > now - 15 then some (time, u) else none
    | none => none

/-- Result of one `socket_auth` run: the returned `Result<UserId>`, the
pre-auth cache after the run, and whether `nc_client.verify_credentials`
was invoked. -/
structure AuthOut where
  result : Except String String
  pre_auth : PreAuthMap
  verifierCalled : Bool

/-- Model of `socket_auth` from `src/connection.rs`, after both authentication frames
have been read as `username` and `password`: cull the pre-auth cache, remove
and adopt a pre-auth hit on the password slot, otherwise defer to the external
verifier when the username is non-empty, and fail with "Invalid credentials"
when it is empty. -/
def socket_auth (m : PreAuthMap) (now : Int) (username password : String)
    (verify : String → String → List String → Except String String)
    (forwarded_for : List String) : AuthOut :=
  let m1 := cullPreAuth m now
  match m1 password with
  | some (_, user) =>
      ⟨Except.ok user, fun t => if t = password then none else m1 t, false⟩
  | none =>
      if username ≠ "" then
        ⟨verify username password forwarded_for, m1, true⟩
      else
        ⟨Except.error "Invalid credentials", m1, false⟩

/-- Resolved outcome of the 15-second `timeout(..., socket_auth(..))` wrapper
in `handle_user_socket`: the deadline expired, `socket_auth` returned an
error, or it returned a user id. -/
inductive AuthResult where
  | timeout : AuthResult
  | err : String → AuthResult
  | ok : String → AuthResult
deriving DecidableEq, Repr

/-- Observable trace of one `handle_user_socket` run: the text frames sent
during the handshake, how often `METRICS.add_connection` and
`METRICS.remove_connection` ran, whether the session reached steady state,
and the final `ActiveConnections` state. -/
structure SessionTrace where
  frames : List String
  metricIncs : Nat
  metricDecs : Nat
  accepted : Bool
  conns : ConnState

/-- The handshake and metric structure of `handle_user_socket` from
`src/connection.rs`: on auth timeout send "Authentication timeout" and
return; on auth error `e` send "err: e" and return; on success send
"authenticated", then try `connections.add` — on failure send the error
string and return, on success increment the connection metric, run the
sender/receiver flows to completion, and decrement the metric. -/
def handle_user_socket (auth : AuthResult) (s : ConnState) : SessionTrace :=
  match auth with
  | AuthResult.timeout => ⟨["Authentication timeout"], 0, 0, false, s⟩
  | AuthResult.err e => ⟨["err: " ++ e], 0, 0, false, s⟩
  | AuthResult.ok u =>
      match ActiveConnections.add s u with
      | Except.error e => ⟨["authenticated", e], 0, 0, false, s⟩
      | Except.ok s' => ⟨["authenticated"], 1, 1, true, s'⟩

/-- Little-endian byte encoding of a `usize` nonce
(`usize::to_le_bytes`, 8 bytes). -/
def toLeBytes64 (n : Nat) : List Nat :=
  (List.range 8).map (fun i => n / 2 ^ (8 * i) % 256)

/-- What the sender flow does after the ping-probe branch: close the session,
or send a ping frame with the given payload. -/
inductive ProbeAction where
  | close : ProbeAction
  | ping : List Nat → ProbeAction
deriving DecidableEq, Repr

/-- The `Err(_timout)` branch of the `transmit` loop with no held messages:
`expect_pong.swap(data)` with a fresh random `NonZeroUsize` `data`; if the
previous value was positive, close; otherwise send a ping carrying
`data.to_le_bytes()`. Returns the new `expect_pong` value and the action. -/
def pingProbe (expect_pong fresh : Nat) : Nat × ProbeAction :=
  let last_ping := expect_pong
  if last_ping > 0 then
    (fresh, ProbeAction.close)
  else
    (fresh, ProbeAction.ping (toLeBytes64 fresh))

/-- The pong branch of the `receive` loop: `expect_pong.swap(0)` reads the
expected nonce and resets the slot; the session continues iff the frame
payload equals `expected.to_le_bytes()`. Returns the new `expect_pong` value
and whether the session continues. -/
def pongStep (expect_pong : Nat) (payload : List Nat) : Nat × Bool :=
  let expected := expect_pong
  (0, if payload = toLeBytes64 expected then true else false)

/-- Bus events (`src/event.rs` as consumed by `App::handle_event`). -/
inductive Event where
  | StorageUpdate : Nat → String → Event
  | GroupUpdate : String → Event
  | ShareCreate : String → Event
  | TestCookie : Nat → Event
  | Activity : String → Event
  | Notification : String → Event
  | PreAuth : String → String → Event
  | Custom : String → String → String → Event
  | ConfigLogSpec : String → Event
  | ConfigLogRestore : Event
deriving DecidableEq, Repr

/-- The `App` state touched by `App::handle_event`: the `ActiveConnections`
map, the pre-auth cache and the `test_cookie` atomic. -/
structure AppState where
  connections : ConnState
  pre_auth : PreAuthMap
  test_cookie : Nat

/-- Model of `App::handle_event` from `src/lib.rs`. `mapping` stands for
`storage_mapping.get_users_for_storage_path` and `now` for `Instant::now()`
at the `PreAuth` insert. Log-config events only touch the logger. -/
def App.handle_event (mapping : Nat → String → Except String (List String))
    (now : Int) (s : AppState) (e : Event) : AppState :=
  match e with
  | Event.StorageUpdate storage path =>
      match mapping storage path with
      | Except.ok users =>
          { s with connections :=
              (users.foldl
                (fun c u => ActiveConnections.send_to_user c u MessageType.File)
                s.connections) }
      | Except.error _ => s
  | Event.GroupUpdate user =>
      { s with connections :=
          ActiveConnections.send_to_user s.connections user MessageType.File }
  | Event.ShareCreate user =>
      { s with connections :=
          ActiveConnections.send_to_user s.connections user MessageType.File }
  | Event.TestCookie cookie =>
      { s with test_cookie := cookie }
  | Event.Activity user =>
      { s with connections :=
          ActiveConnections.send_to_user s.connections user MessageType.Activity }
  | Event.Notification user =>
      { s with connections :=
          ActiveConnections.send_to_user s.connections user MessageType.Notification }
  | Event.PreAuth user token =>
      { s with pre_auth := (fun t => if t = token then some (now, user) else s.pre_auth t) }
  | Event.Custom user message body =>
      { s with connections :=
          (ActiveConnections.send_to_user s.connections user
            (MessageType.Custom message body)) }
  | Event.ConfigLogSpec _ => s
  | Event.ConfigLogRestore => s

/-- Spec-side description of "publish `msg` to `u`": the entry for `u`, when
present, gains `msg` at the end of its log with its receiver count unchanged;
an absent entry stays absent; all other users are untouched. -/
def PublishesTo (before after : ConnState) (u : String) (msg : MessageType) : Prop :=
  (∀ v, v ≠ u → after v = before v) ∧
  (match before u with
   | some f => after u = some ⟨f.receivers, f.log ++ [msg]⟩
   | none => after u = none)

/-- Returns `true` iff `ActiveConnections.add` refuses the subscribe attempt. -/
def addFails (s : ConnState) (u : String) : Bool :=
  match ActiveConnections.add s u with
  | Except.error _ => true
  | Except.ok _ => false

/-- Live receiver count of `u`'s fan-out (0 when no entry exists). -/
def currentReceivers (s : ConnState) (u : String) : Nat :=
  match s u with
  | some f => f.receivers
  | none => 0

/-- A connections map where "bob" already has 64 live subscribers. -/
def conn64 : ConnState := fun u => if u = "bob" then some ⟨64, []⟩ else none

/-- The map after one more successful subscribe for "bob" on `conn64`. -/
def conn65 : ConnState := updateConn conn64 "bob" ⟨65, []⟩

/-- A connections map where "carol" already has 65 live subscribers. -/
def carolState : ConnState := fun u => if u = "carol" then some ⟨65, []⟩ else none

/-- The empty pre-auth cache. -/
def emptyPreAuth : PreAuthMap := fun _ => none

/-- A pre-auth cache holding token "abc" for "bob", stamped at second 100. -/
def preAuthA : PreAuthMap := fun t => if t = "abc" then some (100, "bob") else none

/-- A verifier that rejects everything (never consulted in the witnesses). -/
def noVerify : String → String → List String → Except String String :=
  fun _ _ _ => Except.error "auth failed"

/-- A storage mapping that resolves every path to no users. -/
def noMapping : Nat → String → Except String (List String) :=
  fun _ _ => Except.ok []

/-- A concrete `App` state: "carol" connected, no pre-auth tokens, cookie 0. -/
def appA : AppState := ⟨carolState, emptyPreAuth, 0⟩



/-- The error message of a failed run, `none` on success. -/
def errOf (r : Except String ConnState) : Option String :=
  match r with
  | Except.error e => some e
  | Except.ok _ => none

/-- C1 counterexample: starting from an empty map, 65 consecutive subscribe
attempts for "alice" all succeed and leave 65 live subscribers on her fan-out,
so the 65th concurrent subscribe attempt does not return `LimitExceeded` and
the live-subscriber count does exceed 64 at the point of admission. -/
theorem c1_counterexample_sixty_fifth_subscribe_succeeds :
    okReceivers (addIter 65 emptyConnections "alice") "alice" = some 65 := by
  decide

/-- C1 (amended): `ActiveConnections.add` returns `LimitExceeded` exactly when
an entry for the user exists and its current live-subscriber count already
exceeds `USER_CONNECTION_LIMIT = 64`; hence the count never exceeds 65 at the
point of admission, the 65th concurrent subscribe attempt still succeeds (with
65 live subscribers), and it is the 66th attempt that returns `LimitExceeded`. -/
theorem c1_admission_limit_amended :
    (∀ s u, addFails s u = true ↔ USER_CONNECTION_LIMIT < currentReceivers s u) ∧
    (∀ s u s', ActiveConnections.add s u = Except.ok s' →
      currentReceivers s' u ≤ USER_CONNECTION_LIMIT + 1) ∧
    okReceivers (addIter 65 emptyConnections "bob") "bob" = some 65 ∧
    errOf (addIter 66 emptyConnections "bob") = some "connection limit exceeded" := by
  refine ⟨?_, ?_, by decide, by decide⟩
  · intro s u
    cases h : s u with
    | none => simp [addFails, ActiveConnections.add, currentReceivers, h]
    | some f =>
        by_cases hf : f.receivers > USER_CONNECTION_LIMIT
        · simp [addFails, ActiveConnections.add, currentReceivers, h, hf]
        · simp [addFails, ActiveConnections.add, currentReceivers, h, hf]
  · intro s u s' hadd
    cases h : s u with
    | none =>
        rw [ActiveConnections.add, h] at hadd
        cases hadd
        simp [currentReceivers, updateConn, USER_CONNECTION_LIMIT]
    | some f =>
        rw [ActiveConnections.add, h] at hadd
        by_cases hf : f.receivers > USER_CONNECTION_LIMIT
        · simp [hf] at hadd
        · simp [hf] at hadd
          cases hadd
          simp [USER_CONNECTION_LIMIT] at hf
          simp [currentReceivers, updateConn, USER_CONNECTION_LIMIT]
          omega

/-- C1 witness: a successful admission from the concrete state where "bob" has
64 subscribers leaves his live-subscriber count within the actual bound 65. -/
theorem c1_admission_limit_amended_witness :
    currentReceivers conn65 "bob" ≤ USER_CONNECTION_LIMIT + 1 :=
  c1_admission_limit_amended.2.1 conn64 "bob" conn65 rfl

/-- C2 counterexample: from the concrete state where "carol" already has 65
live subscribers, an authenticated handshake is refused for exceeding the
connection limit, yet the session receives two reply frames and the first of
them is "authenticated" — refuting both "exactly one reply frame" and "a
refused session never receives the authenticated frame". -/
theorem c2_counterexample_limit_refusal_gets_authenticated :
    (handle_user_socket (AuthResult.ok "carol") carolState).accepted = false ∧
    (handle_user_socket (AuthResult.ok "carol") carolState).frames =
      ["authenticated", "connection limit exceeded"] := by
  constructor
  · decide
  · decide

/-- C2 (amended): a handshake that fails authentication sends exactly one
reply frame — "Authentication timeout" on deadline expiry, "err: <message>"
on an auth error — and never "authenticated"; an accepted session receives
exactly the single frame "authenticated"; but a session that authenticates
and is then refused for exceeding the connection limit receives two frames,
"authenticated" followed by "connection limit exceeded". -/
theorem c2_handshake_frames_amended :
    (∀ s, (handle_user_socket AuthResult.timeout s).frames = ["Authentication timeout"]) ∧
    (∀ s e, (handle_user_socket (AuthResult.err e) s).frames = ["err: " ++ e]) ∧
    (∀ s u, addFails s u = false →
      (handle_user_socket (AuthResult.ok u) s).frames = ["authenticated"]) ∧
    (∀ s u, addFails s u = true →
      (handle_user_socket (AuthResult.ok u) s).frames =
        ["authenticated", "connection limit exceeded"]) := by
  refine ⟨fun s => rfl, fun s e => rfl, ?_, ?_⟩
  · intro s u hok
    cases hadd : ActiveConnections.add s u with
    | ok s' => simp [handle_user_socket, hadd]
    | error e => simp [addFails, hadd] at hok
  · intro s u hfail
    cases hadd : ActiveConnections.add s u with
    | ok s' => simp [addFails, hadd] at hfail
    | error e =>
        have he : e = "connection limit exceeded" := by
          rw [ActiveConnections.add] at hadd
          cases h : s u with
          | none => rw [h] at hadd; cases hadd
          | some f =>
              rw [h] at hadd
              by_cases hf : f.receivers > USER_CONNECTION_LIMIT
              · simp [hf] at hadd; exact hadd.symm
              · simp [hf] at hadd
        simp [handle_user_socket, hadd, he]

/-- C2 witness: from the empty connections map, an authenticated handshake for
"dan" is accepted and its only handshake frame is "authenticated". -/
theorem c2_handshake_frames_amended_witness :
    (handle_user_socket (AuthResult.ok "dan") emptyConnections).frames =
      ["authenticated"] :=
  c2_handshake_frames_amended.2.2.1 emptyConnections "dan" (by decide)

/-- C3: the active-connection metric is incremented exactly once and
decremented exactly once for a session whose authentication and admission
both succeed, and neither incremented nor decremented for a session refused
by an auth error, by the auth deadline, or by the connection limit. -/
theorem c3_connection_metric_balanced :
    (∀ s u, addFails s u = false →
      (handle_user_socket (AuthResult.ok u) s).metricIncs = 1 ∧
      (handle_user_socket (AuthResult.ok u) s).metricDecs = 1) ∧
    (∀ s u, addFails s u = true →
      (handle_user_socket (AuthResult.ok u) s).metricIncs = 0 ∧
      (handle_user_socket (AuthResult.ok u) s).metricDecs = 0) ∧
    (∀ s, (handle_user_socket AuthResult.timeout s).metricIncs = 0 ∧
      (handle_user_socket AuthResult.timeout s).metricDecs = 0) ∧
    (∀ s e, (handle_user_socket (AuthResult.err e) s).metricIncs = 0 ∧
      (handle_user_socket (AuthResult.err e) s).metricDecs = 0) := by
  refine ⟨?_, ?_, fun s => ⟨rfl, rfl⟩, fun s e => ⟨rfl, rfl⟩⟩
  · intro s u hok
    cases hadd : ActiveConnections.add s u with
    | ok s' => simp [handle_user_socket, hadd]
    | error e => simp [addFails, hadd] at hok
  · intro s u hfail
    cases hadd : ActiveConnections.add s u with
    | ok s' => simp [addFails, hadd] at hfail
    | error e => simp [handle_user_socket, hadd]

/-- C3 witness: the accepted session for "dan" on the empty map increments and
decrements the metric exactly once each. -/
theorem c3_connection_metric_balanced_witness :
    (handle_user_socket (AuthResult.ok "dan") emptyConnections).metricIncs = 1 ∧
    (handle_user_socket (AuthResult.ok "dan") emptyConnections).metricDecs = 1 :=
  c3_connection_metric_balanced.1 emptyConnections "dan" (by decide)

/-- C4: on a 30-second quiet window with nothing held, the fresh non-zero
nonce is swapped into `expect_pong`; the session closes exactly when the
previous slot value was non-zero (the prior ping unanswered), and otherwise a
ping carrying the nonce's 8 little-endian bytes is sent — so a client that
never pongs is closed by the second consecutive quiet window. -/
theorem c4_ping_probe_two_windows :
    (∀ e f, f ≠ 0 →
      (pingProbe e f).1 = f ∧
      ((pingProbe e f).2 = ProbeAction.close ↔ e ≠ 0) ∧
      (e = 0 → (pingProbe e f).2 = ProbeAction.ping (toLeBytes64 f))) ∧
    (∀ f1 f2, f1 ≠ 0 → f2 ≠ 0 →
      (pingProbe (pingProbe 0 f1).1 f2).2 = ProbeAction.close) := by
  constructor
  · intro e f _
    refine ⟨?_, ?_, ?_⟩
    · by_cases he : e > 0 <;> simp [pingProbe, he]
    · by_cases he : e > 0 <;> simp [pingProbe, he] <;> omega
    · intro h0
      simp [pingProbe, h0]
  · intro f1 f2 h1 _
    have hpos : f1 > 0 := Nat.pos_of_ne_zero h1
    simp [pingProbe, hpos]

/-- C4 witness: with no ping outstanding and fresh nonce 7 the probe sends a
ping with payload `toLeBytes64 7` and stores 7; a second quiet window with
fresh nonce 9 then closes the session. -/
theorem c4_ping_probe_two_windows_witness :
    (pingProbe 0 7).1 = 7 ∧
    (pingProbe 0 7).2 = ProbeAction.ping (toLeBytes64 7) ∧
    (pingProbe (pingProbe 0 7).1 9).2 = ProbeAction.close :=
  ⟨(c4_ping_probe_two_windows.1 0 7 (by decide)).1,
   (c4_ping_probe_two_windows.1 0 7 (by decide)).2.2 rfl,
   c4_ping_probe_two_windows.2 7 9 (by decide) (by decide)⟩

/-- C5: every inbound pong swaps 0 into `expect_pong`, and the session
continues exactly when the frame payload equals the little-endian encoding of
the nonce that was read out of the slot. -/
theorem c5_pong_payload_check :
    ∀ e p, (pongStep e p).1 = 0 ∧
      ((pongStep e p).2 = true ↔ p = toLeBytes64 e) := by
  intro e p
  refine ⟨rfl, ?_⟩
  by_cases h : p = toLeBytes64 e <;> simp [pongStep, h]

/-- C5 witness: a pong carrying the correct encoding of the outstanding nonce
258 lets the session continue, and the slot is reset to 0. -/
theorem c5_pong_payload_check_witness :
    (pongStep 258 (toLeBytes64 258)).1 = 0 ∧
    (pongStep 258 (toLeBytes64 258)).2 = true :=
  ⟨(c5_pong_payload_check 258 (toLeBytes64 258)).1,
   (c5_pong_payload_check 258 (toLeBytes64 258)).2.mpr rfl⟩

/-- C10: a pong that arrives with no ping outstanding (`expect_pong = 0`) is
checked against the little-endian encoding of 0, which is eight zero bytes:
the session continues exactly when the payload is eight zero bytes, and the
slot stays 0. -/
theorem c10_unsolicited_pong :
    toLeBytes64 0 = List.replicate 8 0 ∧
    (∀ p, (pongStep 0 p).1 = 0 ∧
      ((pongStep 0 p).2 = true ↔ p = List.replicate 8 0)) := by
  refine ⟨by decide, ?_⟩
  intro p
  refine ⟨rfl, ?_⟩
  by_cases h : p = List.replicate 8 0 <;> simp [pongStep, toLeBytes64, h]

/-- C10 witness: an unsolicited pong of eight zero bytes is accepted and the
session continues. -/
theorem c10_unsolicited_pong_witness :
    (pongStep 0 (List.replicate 8 0)).2 = true :=
  ((c10_unsolicited_pong.2 (List.replicate 8 0)).2).mpr rfl


/-- The cull pass returns an entry exactly when the underlying cache holds it
and its timestamp is strictly later than `now - 15`. -/
theorem cull_eq_some_iff (m : PreAuthMap) (now : Int) (token : String)
    (t : Int) (user : String) :
    cullPreAuth m now token = some (t, user) ↔
      m token = some (t, user) ∧ now - 15 < t := by
  rw [cullPreAuth]
  cases hm : m token with
  | none => simp
  | some p =>
      obtain ⟨time, u⟩ := p
      show (if time > now - 15 then some (time, u) else none) = some (t, user) ↔
        some (time, u) = some (t, user) ∧ now - 15 < t
      by_cases ht : time > now - 15
      · rw [if_pos ht]
        simp only [Option.some_inj, Prod.mk.injEq]
        exact ⟨fun ⟨h1, h2⟩ => ⟨⟨h1, h2⟩, h1 ▸ ht⟩, fun h => h.1⟩
      · rw [if_neg ht]
        simp only [Option.some_inj, Prod.mk.injEq]
        constructor
        · intro h
          cases h
        · rintro ⟨⟨rfl, rfl⟩, h3⟩
          exact absurd h3 ht

/-- Unfolding of `socket_auth` on a pre-auth cache hit. -/
theorem socket_auth_hit (m : PreAuthMap) (now : Int) (username password : String)
    (verify : String → String → List String → Except String String)
    (fwd : List String) (t : Int) (user : String)
    (h : cullPreAuth m now password = some (t, user)) :
    socket_auth m now username password verify fwd =
      ⟨Except.ok user, fun t' => if t' = password then none else cullPreAuth m now t',
        false⟩ := by
  rw [socket_auth]
  simp only [h]

/-- Unfolding of `socket_auth` on a miss with an empty username. -/
theorem socket_auth_miss_empty (m : PreAuthMap) (now : Int) (password : String)
    (verify : String → String → List String → Except String String)
    (fwd : List String) (h : cullPreAuth m now password = none) :
    socket_auth m now "" password verify fwd =
      ⟨Except.error "Invalid credentials", cullPreAuth m now, false⟩ := by
  rw [socket_auth]
  simp only [h]
  simp

/-- Unfolding of `socket_auth` on a miss with a non-empty username. -/
theorem socket_auth_miss_user (m : PreAuthMap) (now : Int)
    (username password : String)
    (verify : String → String → List String → Except String String)
    (fwd : List String) (h : cullPreAuth m now password = none)
    (hu : username ≠ "") :
    socket_auth m now username password verify fwd =
      ⟨verify username password fwd, cullPreAuth m now, true⟩ := by
  rw [socket_auth]
  simp only [h]
  simp [hu]

/-- C6: a pre-auth token is single-use — when the culled cache holds the token,
authentication adopts its user and removes the entry, so a second attempt that
presents the same token with an empty username fails with "Invalid credentials". -/
theorem c6_preauth_single_use :
    ∀ (m : PreAuthMap) (now now' : Int) (u0 : String)
      (verify verify' : String → String → List String → Except String String)
      (fwd fwd' : List String) (token : String) (t : Int) (user : String),
      cullPreAuth m now token = some (t, user) →
      (socket_auth m now u0 token verify fwd).result = Except.ok user ∧
      (socket_auth m now u0 token verify fwd).pre_auth token = none ∧
      (socket_auth (socket_auth m now u0 token verify fwd).pre_auth
        now' "" token verify' fwd').result = Except.error "Invalid credentials" := by
  intro m now now' u0 verify verify' fwd fwd' token t user h
  rw [socket_auth_hit m now u0 token verify fwd t user h]
  refine ⟨rfl, by simp, ?_⟩
  have h2 : cullPreAuth (fun t' => if t' = token then none else cullPreAuth m now t')
      now' token = none := by
    rw [cullPreAuth]
    simp
  rw [socket_auth_miss_empty _ now' token verify' fwd' h2]

/-- C6 witness: on the concrete cache holding token "abc" for "bob" at second
100, the first empty-username attempt with "abc" authenticates as "bob" and
consumes the entry, and a second identical attempt fails with
"Invalid credentials". -/
theorem c6_preauth_single_use_witness :
    (socket_auth preAuthA 100 "" "abc" noVerify []).result = Except.ok "bob" ∧
    (socket_auth (socket_auth preAuthA 100 "" "abc" noVerify []).pre_auth
      100 "" "abc" noVerify []).result = Except.error "Invalid credentials" :=
  ⟨(c6_preauth_single_use preAuthA 100 100 "" noVerify noVerify [] [] "abc" 100 "bob"
      (by decide)).1,
   (c6_preauth_single_use preAuthA 100 100 "" noVerify noVerify [] [] "abc" 100 "bob"
      (by decide)).2.2⟩

/-- C7: the cull pass keeps exactly the entries stamped strictly later than
`now - 15`, so a lookup can only succeed for an entry younger than 15 seconds;
consequently whenever `socket_auth` accepts without calling the external
verifier, the accepted token's cache entry was stamped strictly later than
`now - 15`. -/
theorem c7_preauth_expiry :
    (∀ (m : PreAuthMap) (now : Int) (token : String) (t : Int) (user : String),
      cullPreAuth m now token = some (t, user) →
      now - 15 < t ∧ m token = some (t, user)) ∧
    (∀ (m : PreAuthMap) (now : Int) (username password : String)
      (verify : String → String → List String → Except String String)
      (fwd : List String) (user : String),
      (socket_auth m now username password verify fwd).verifierCalled = false →
      (socket_auth m now username password verify fwd).result = Except.ok user →
      ∃ t, m password = some (t, user) ∧ now - 15 < t) := by
  constructor
  · intro m now token t user h
    have := (cull_eq_some_iff m now token t user).mp h
    exact ⟨this.2, this.1⟩
  · intro m now username password verify fwd user hv hr
    cases hc : cullPreAuth m now password with
    | some p =>
        obtain ⟨t0, u0⟩ := p
        rw [socket_auth_hit m now username password verify fwd t0 u0 hc] at hr
        have hu : u0 = user := by
          cases hr
          rfl
        subst hu
        have := (cull_eq_some_iff m now password t0 u0).mp hc
        exact ⟨t0, this.1, this.2⟩
    | none =>
        by_cases hu : username ≠ ""
        · rw [socket_auth_miss_user m now username password verify fwd hc hu] at hv
          cases hv
        · have hue : username = "" := not_ne_iff.mp hu
          subst hue
          rw [socket_auth_miss_empty m now password verify fwd hc] at hr
          cases hr

/-- C7 witness: on the concrete cache, the culled lookup of "abc" at second 100
returns the entry stamped at second 100, which is younger than 15 seconds. -/
theorem c7_preauth_expiry_witness :
    (100 : Int) - 15 < 100 ∧ preAuthA "abc" = some (100, "bob") :=
  c7_preauth_expiry.1 preAuthA 100 "abc" 100 "bob" (by decide)

/-- C8: when the culled pre-auth lookup misses and the username is empty,
authentication fails with "Invalid credentials" without consulting the
external verifier; the verifier is only ever called with a non-empty username. -/
theorem c8_empty_username_invalid_credentials :
    (∀ (m : PreAuthMap) (now : Int) (password : String)
      (verify : String → String → List String → Except String String)
      (fwd : List String),
      cullPreAuth m now password = none →
      (socket_auth m now "" password verify fwd).result =
        Except.error "Invalid credentials" ∧
      (socket_auth m now "" password verify fwd).verifierCalled = false) ∧
    (∀ (m : PreAuthMap) (now : Int) (username password : String)
      (verify : String → String → List String → Except String String)
      (fwd : List String),
      (socket_auth m now username password verify fwd).verifierCalled = true →
      username ≠ "") := by
  constructor
  · intro m now password verify fwd hmiss
    rw [socket_auth_miss_empty m now password verify fwd hmiss]
    exact ⟨rfl, rfl⟩
  · intro m now username password verify fwd hv
    cases hc : cullPreAuth m now password with
    | some p =>
        obtain ⟨t0, u0⟩ := p
        rw [socket_auth_hit m now username password verify fwd t0 u0 hc] at hv
        cases hv
    | none =>
        by_cases hu : username ≠ ""
        · exact hu
        · have hue : username = "" := not_ne_iff.mp hu
          subst hue
          rw [socket_auth_miss_empty m now password verify fwd hc] at hv
          cases hv

/-- C8 witness: on the empty pre-auth cache, an empty username with password
"whatever" fails with "Invalid credentials" and the verifier is not called. -/
theorem c8_empty_username_invalid_credentials_witness :
    (socket_auth emptyPreAuth 0 "" "whatever" noVerify []).result =
      Except.error "Invalid credentials" ∧
    (socket_auth emptyPreAuth 0 "" "whatever" noVerify []).verifierCalled = false :=
  c8_empty_username_invalid_credentials.1 emptyPreAuth 0 "whatever" noVerify [] (by decide)

/-- Lemma: `send_to_user` realizes the spec-side publish: the target entry, when
present, gains the message at the end of its log; an absent entry stays
absent; other users are untouched. -/
theorem send_to_user_publishes (c : ConnState) (u : String) (msg : MessageType) :
    PublishesTo c (ActiveConnections.send_to_user c u msg) u msg := by
  rw [PublishesTo, ActiveConnections.send_to_user]
  cases h : c u with
  | none => exact ⟨fun v _ => rfl, h⟩
  | some f =>
      constructor
      · intro v hv
        simp [updateConn, hv]
      · simp [updateConn]

/-- C9: the dispatcher routes events per the taxonomy — `GroupUpdate` and
`ShareCreate` publish `File`, `Activity` publishes `Activity`, `Notification`
publishes `Notification`, `Custom` publishes `Custom(message, body)` to the
named user, `PreAuth` inserts `(now, user)` under the token, `TestCookie`
stores the value into the process-wide counter — and publishing to a user
with no `ActiveConnections` entry leaves the whole state unchanged. -/
theorem c9_event_dispatch_routing :
    ∀ (mapping : Nat → String → Except String (List String)) (now : Int)
      (s : AppState) (u message body token : String) (cookie : Nat),
      (PublishesTo s.connections
        (App.handle_event mapping now s (Event.GroupUpdate u)).connections u
        MessageType.File ∧
       (App.handle_event mapping now s (Event.GroupUpdate u)).pre_auth = s.pre_auth ∧
       (App.handle_event mapping now s (Event.GroupUpdate u)).test_cookie =
         s.test_cookie) ∧
      (PublishesTo s.connections
        (App.handle_event mapping now s (Event.ShareCreate u)).connections u
        MessageType.File ∧
       (App.handle_event mapping now s (Event.ShareCreate u)).pre_auth = s.pre_auth ∧
       (App.handle_event mapping now s (Event.ShareCreate u)).test_cookie =
         s.test_cookie) ∧
      (PublishesTo s.connections
        (App.handle_event mapping now s (Event.Activity u)).connections u
        MessageType.Activity ∧
       (App.handle_event mapping now s (Event.Activity u)).pre_auth = s.pre_auth ∧
       (App.handle_event mapping now s (Event.Activity u)).test_cookie =
         s.test_cookie) ∧
      (PublishesTo s.connections
        (App.handle_event mapping now s (Event.Notification u)).connections u
        MessageType.Notification ∧
       (App.handle_event mapping now s (Event.Notification u)).pre_auth = s.pre_auth ∧
       (App.handle_event mapping now s (Event.Notification u)).test_cookie =
         s.test_cookie) ∧
      (PublishesTo s.connections
        (App.handle_event mapping now s (Event.Custom u message body)).connections u
        (MessageType.Custom message body) ∧
       (App.handle_event mapping now s (Event.Custom u message body)).pre_auth =
         s.pre_auth ∧
       (App.handle_event mapping now s (Event.Custom u message body)).test_cookie =
         s.test_cookie) ∧
      ((App.handle_event mapping now s (Event.PreAuth u token)).pre_auth token =
         some (now, u) ∧
       (∀ t', t' ≠ token →
         (App.handle_event mapping now s (Event.PreAuth u token)).pre_auth t' =
           s.pre_auth t') ∧
       (App.handle_event mapping now s (Event.PreAuth u token)).connections =
         s.connections ∧
       (App.handle_event mapping now s (Event.PreAuth u token)).test_cookie =
         s.test_cookie) ∧
      ((App.handle_event mapping now s (Event.TestCookie cookie)).test_cookie =
         cookie ∧
       (App.handle_event mapping now s (Event.TestCookie cookie)).connections =
         s.connections ∧
       (App.handle_event mapping now s (Event.TestCookie cookie)).pre_auth =
         s.pre_auth) ∧
      (s.connections u = none →
        App.handle_event mapping now s (Event.GroupUpdate u) = s) := by
  intro mapping now s u message body token cookie
  refine ⟨⟨send_to_user_publishes s.connections u MessageType.File, rfl, rfl⟩,
    ⟨send_to_user_publishes s.connections u MessageType.File, rfl, rfl⟩,
    ⟨send_to_user_publishes s.connections u MessageType.Activity, rfl, rfl⟩,
    ⟨send_to_user_publishes s.connections u MessageType.Notification, rfl, rfl⟩,
    ⟨send_to_user_publishes s.connections u (MessageType.Custom message body),
      rfl, rfl⟩,
    ⟨by simp [App.handle_event], ?_, rfl, rfl⟩, ⟨rfl, rfl, rfl⟩, ?_⟩
  · intro t' ht'
    simp [App.handle_event, ht']
  · intro h
    have hsend : ActiveConnections.send_to_user s.connections u MessageType.File =
        s.connections := by
      rw [ActiveConnections.send_to_user, h]
    show { s with connections :=
        ActiveConnections.send_to_user s.connections u MessageType.File } = s
    rw [hsend]

/-- C9 witness: on the concrete state, a `GroupUpdate` for an unconnected user
leaves the state unchanged, a `PreAuth` event inserts the stamped token, and a
`TestCookie` event stores the value. -/
theorem c9_event_dispatch_routing_witness :
    App.handle_event noMapping 5 appA (Event.GroupUpdate "nobody") = appA ∧
    (App.handle_event noMapping 5 appA (Event.PreAuth "bob" "tok")).pre_auth "tok" =
      some (5, "bob") ∧
    (App.handle_event noMapping 5 appA (Event.TestCookie 9)).test_cookie = 9 :=
  ⟨(c9_event_dispatch_routing noMapping 5 appA "nobody" "m" "b" "tok" 9).2.2.2.2.2.2.2
      (by decide),
   (c9_event_dispatch_routing noMapping 5 appA "bob" "m" "b" "tok" 9).2.2.2.2.2.1.1,
   (c9_event_dispatch_routing noMapping 5 appA "nobody" "m" "b" "tok" 9).2.2.2.2.2.2.1.1⟩
